import Mathlib

/-!
Shallow embedding of the session & response-cache store of the
weather-ai-assistant repository.

Python dicts are modelled as association lists over `String` keys that keep
insertion order: `d[k] = v` replaces in place when the key is present and
appends otherwise, `del d[k]` removes the (unique) binding, `d.get(k)` is
`dlookup`.  Wall-clock instants are modelled as natural numbers of seconds
with an injectable `now`; `datetime.now() - t` is `now - t` (truncated
subtraction: a future timestamp gives 0, which compares below any positive
timeout exactly as a negative `timedelta` does in Python).  Python's
`timedelta.seconds` attribute is the seconds *component* of the normalised
timedelta, i.e. the total age modulo 86400 for non-negative differences.
Fresh UUIDs and upstream producer results are passed in as parameters.
-/

namespace WeatherStore

/-- Python `d.get(k)` on an insertion-ordered dict. -/
def dlookup {α : Type} (k : String) : List (String × α) → Option α
  | [] => none
  | (k', v) :: rest => if k' = k then some v else dlookup k rest

/-- Python `d[k] = v`: replace in place if present, else append. -/
def dinsert {α : Type} (k : String) (v : α) : List (String × α) → List (String × α)
  | [] => [(k, v)]
  | (k', v') :: rest => if k' = k then (k', v) :: rest else (k', v') :: dinsert k v rest

/-- Python `del d[k]` (removes the first binding of `k`; dict keys are unique). -/
def derase {α : Type} (k : String) : List (String × α) → List (String × α)
  | [] => []
  | (k', v') :: rest => if k' = k then rest else (k', v') :: derase k rest

/-- models.py `ChatMessage` (timestamp as seconds). -/
structure ChatMessage where
  role : String
  content : String
  timestamp : Nat
  message_id : String
deriving Repr, DecidableEq

/-- models.py `ChatSession`. -/
structure ChatSession where
  session_id : String
  messages : List ChatMessage
  created_at : Nat
  last_activity : Nat
deriving Repr, DecidableEq

/-- session_manager.py `SessionManager.__init__`: `user_sessions` is
`{user_id: {session_id: ChatSession}}`; `session_timeout` is 24 hours
(86400 seconds) in the source, kept as a field. -/
structure SessionManager where
  user_sessions : List (String × List (String × ChatSession))
  session_timeout : Nat
deriving Repr, DecidableEq

/-- session_manager.py `_is_session_valid`:
`datetime.now(timezone.utc) - last_activity < self.session_timeout`
(a full timedelta comparison, strict). -/
def SessionManager.is_session_valid (m : SessionManager) (now : Nat)
    (s : ChatSession) : Bool :=
  now - s.last_activity < m.session_timeout

/-- session_manager.py `create_session` (the fresh uuid is injected as
`session_id`). -/
def SessionManager.create_session (m : SessionManager) (user_id : String)
    (session_id : String) (now : Nat) : ChatSession × SessionManager :=
  let session : ChatSession :=
    { session_id := session_id, messages := [], created_at := now,
      last_activity := now }
  let subs := (dlookup user_id m.user_sessions).getD []
  (session,
    { m with user_sessions :=
        dinsert user_id (dinsert session_id session subs) m.user_sessions })

/-- session_manager.py `get_session`: only within the user's own sub-map, and
only when `_is_session_valid`. -/
def SessionManager.get_session (m : SessionManager) (session_id : String)
    (user_id : String) (now : Nat) : Option ChatSession :=
  match dlookup user_id m.user_sessions with
  | none => none
  | some subs =>
    match dlookup session_id subs with
    | some s => if m.is_session_valid now s then some s else none
    | none => none

/-- session_manager.py `add_message` (fresh uuid injected as `message_id`;
the in-place mutation of the session object held by the dict is modelled by
writing the updated session back at the same keys). -/
def SessionManager.add_message (m : SessionManager) (session_id : String)
    (role : String) (content : String) (user_id : String)
    (message_id : String) (now : Nat) : Option ChatMessage × SessionManager :=
  match m.get_session session_id user_id now with
  | none => (none, m)
  | some s =>
    let msg : ChatMessage :=
      { role := role, content := content, timestamp := now,
        message_id := message_id }
    let s' : ChatSession :=
      { s with messages := s.messages ++ [msg], last_activity := now }
    let subs := (dlookup user_id m.user_sessions).getD []
    (some msg,
      { m with user_sessions :=
          dinsert user_id (dinsert session_id s' subs) m.user_sessions })

/-- session_manager.py `get_conversation_history`:
`session.messages[-limit:] if limit else session.messages` (for a
non-negative `limit`, the Python slice `xs[-limit:]` is the last
`min limit xs.length` elements). -/
def SessionManager.get_conversation_history (m : SessionManager)
    (session_id : String) (user_id : String) (limit : Nat) (now : Nat) :
    List ChatMessage :=
  match m.get_session session_id user_id now with
  | none => []
  | some s =>
    if limit = 0 then s.messages
    else s.messages.drop (s.messages.length - limit)

/-- session_manager.py `get_conversation_history` invoked with `limit`
unset: the source declares the default argument `limit: int = 10`. -/
def SessionManager.get_conversation_history_unset (m : SessionManager)
    (session_id : String) (user_id : String) (now : Nat) :
    List ChatMessage :=
  m.get_conversation_history session_id user_id 10 now

/-- session_manager.py `delete_session`. -/
def SessionManager.delete_session (m : SessionManager) (session_id : String)
    (user_id : String) : Bool × SessionManager :=
  match dlookup user_id m.user_sessions with
  | none => (false, m)
  | some subs =>
    match dlookup session_id subs with
    | none => (false, m)
    | some _ =>
      (true,
        { m with user_sessions :=
            dinsert user_id (derase session_id subs) m.user_sessions })

/-- session_manager.py `delete_all_sessions`: `.clear()` empties the user's
sub-map (the user key itself stays in the outer dict) and returns the size it
had. -/
def SessionManager.delete_all_sessions (m : SessionManager)
    (user_id : String) : Nat × SessionManager :=
  match dlookup user_id m.user_sessions with
  | none => (0, m)
  | some subs =>
    (subs.length,
      { m with user_sessions := dinsert user_id [] m.user_sessions })

/-- session_manager.py `cleanup_expired_sessions`: collect the ids of invalid
sessions, then delete each. -/
def SessionManager.cleanup_expired_sessions (m : SessionManager)
    (user_id : String) (now : Nat) : Nat × SessionManager :=
  match dlookup user_id m.user_sessions with
  | none => (0, m)
  | some subs =>
    let expired_ids :=
      (subs.filter (fun p => ! m.is_session_valid now p.2)).map Prod.fst
    let subs' := expired_ids.foldl (fun acc sid => derase sid acc) subs
    (expired_ids.length,
      { m with user_sessions := dinsert user_id subs' m.user_sessions })

/-- session_manager.py `get_session_stats`:
`(total_sessions, active_sessions, expired_sessions)` with
`expired_sessions = total_sessions - active_sessions`. -/
def SessionManager.get_session_stats (m : SessionManager) (user_id : String)
    (now : Nat) : Nat × Nat × Nat :=
  match dlookup user_id m.user_sessions with
  | none => (0, 0, 0)
  | some subs =>
    let total := subs.length
    let active := (subs.filter (fun p => m.is_session_valid now p.2)).length
    (total, active, total - active)

/-- weather_service.py `self.cache[key] = {"data": ..., "timestamp": ...}`. -/
structure CacheEntry (V : Type) where
  data : V
  timestamp : Nat
deriving Repr, DecidableEq

/-- weather_service.py `self.cache_duration = 300  # 5 minutes`. -/
def weather_cache_duration : Nat := 300

/-- air_quality_service.py `self.cache_duration = 600  # 10 minutes`. -/
def air_quality_cache_duration : Nat := 600

/-- weather_service.py / air_quality_service.py `_is_cache_valid`:
`(datetime.now(timezone.utc) - cache_time).seconds < self.cache_duration`.
Note the source reads the `.seconds` *component* of the timedelta, which for
non-negative ages is the total age modulo 86400, not the total age. -/
def is_cache_valid {V : Type} (cache : List (String × CacheEntry V))
    (cache_duration : Nat) (now : Nat) (key : String) : Bool :=
  match dlookup key cache with
  | none => false
  | some e => (now - e.timestamp) % 86400 < cache_duration

/-- weather_service.py miss path shared by all four fetchers: invoke the
upstream request (injected as `producer`); on success store
`{"data": v, "timestamp": now}` under the key and return the data, on any
exception return the error dict and leave the cache untouched. -/
def fetch_and_cache {V : Type} (cache : List (String × CacheEntry V))
    (now : Nat) (key : String) (producer : Except String V) :
    Except String V × List (String × CacheEntry V) :=
  match producer with
  | .ok v => (.ok v, dinsert key { data := v, timestamp := now } cache)
  | .error e => (.error e, cache)

/-- weather_service.py `get_weather_data`: cache key is the bare city name;
serve the cached data when `_is_cache_valid`, else fetch and cache. -/
def get_weather_data {V : Type} (cache : List (String × CacheEntry V))
    (now : Nat) (city : String) (producer : Except String V) :
    Except String V × List (String × CacheEntry V) :=
  match dlookup city cache with
  | some e =>
    if (now - e.timestamp) % 86400 < weather_cache_duration
    then (.ok e.data, cache)
    else fetch_and_cache cache now city producer
  | none => fetch_and_cache cache now city producer

/-- weather_service.py `get_forecast_data` cache key
`f"{city}_forecast_{days}"`. -/
def forecast_cache_key (city : String) (days : Nat) : String :=
  city ++ "_forecast_" ++ toString days

/-- weather_service.py `get_extended_forecast` cache key
`f"{city}_extended_{days}"`. -/
def extended_cache_key (city : String) (days : Nat) : String :=
  city ++ "_extended_" ++ toString days

/-- weather_service.py `get_historical_weather` cache key
`f"{city}_historical_{days_back}"`. -/
def historical_cache_key (city : String) (days_back : Nat) : String :=
  city ++ "_historical_" ++ toString days_back

/-- weather_service.py `get_forecast_data`: identical caching logic to
`get_weather_data` on the same `self.cache` dict, under the composed key. -/
def get_forecast_data {V : Type} (cache : List (String × CacheEntry V))
    (now : Nat) (city : String) (days : Nat) (producer : Except String V) :
    Except String V × List (String × CacheEntry V) :=
  get_weather_data cache now (forecast_cache_key city days) producer

/-- weather_service.py `get_extended_forecast` caching layer. -/
def get_extended_forecast {V : Type} (cache : List (String × CacheEntry V))
    (now : Nat) (city : String) (days : Nat) (producer : Except String V) :
    Except String V × List (String × CacheEntry V) :=
  get_weather_data cache now (extended_cache_key city days) producer

/-- air_quality_service.py `get_air_quality_data` cache key:
`f"{city}_{country}" if country else city`. -/
def air_quality_cache_key (city : String) : Option String → String
  | some country => city ++ "_" ++ country
  | none => city

/-- air_quality_service.py `get_air_quality_data`: serve cached data when
valid; otherwise run the upstream fetch (injected as `producer`, returning
`ok none` when geocoding or the pollution list comes back empty), caching
only a successful non-empty result; any exception yields `None` with the
cache untouched. -/
def get_air_quality_data {V : Type} (cache : List (String × CacheEntry V))
    (now : Nat) (cache_key : String) (producer : Except String (Option V)) :
    Option V × List (String × CacheEntry V) :=
  match dlookup cache_key cache with
  | some e =>
    if (now - e.timestamp) % 86400 < air_quality_cache_duration
    then (some e.data, cache)
    else
      match producer with
      | .ok (some v) =>
        (some v, dinsert cache_key { data := v, timestamp := now } cache)
      | .ok none => (none, cache)
      | .error _ => (none, cache)
  | none =>
    match producer with
    | .ok (some v) =>
      (some v, dinsert cache_key { data := v, timestamp := now } cache)
    | .ok none => (none, cache)
    | .error _ => (none, cache)

/-- main.py `periodic_cleanup`, body of one wake-up of the `while True` loop:
the `for user_id in users` loop sits *inside* the `try`, and the
`except Exception` handler that catches and logs sits outside the loop.  The
per-user cleanup is abstracted as `cleanup : String → Except String Nat`
(an `.error` models `cleanup_expired_sessions` raising).  The result is
(total cleaned, the caught exception if any, the users whose cleanup call
completed, in order). -/
def cleanup_loop (cleanup : String → Except String Nat) :
    List String → Nat → Nat × Option String × List String
  | [], total => (total, none, [])
  | u :: rest, total =>
    match cleanup u with
    | .error e => (total, some e, [])
    | .ok n =>
      let r := cleanup_loop cleanup rest (total + n)
      (r.1, r.2.1, u :: r.2.2)

/-- main.py `periodic_cleanup`: one iteration of the hourly sweep over all
known user ids. -/
def periodic_cleanup_iteration (cleanup : String → Except String Nat)
    (users : List String) : Nat × Option String × List String :=
  cleanup_loop cleanup users 0

/-! Shared lemmas about the dict model. -/

theorem dlookup_dinsert_self {α : Type} (k : String) (v : α)
    (l : List (String × α)) : dlookup k (dinsert k v l) = some v := by
  induction l with
  | nil => simp [dinsert, dlookup]
  | cons p rest ih =>
    obtain ⟨k', v'⟩ := p
    by_cases h : k' = k
    · simp [dinsert, dlookup, h]
    · simp [dinsert, dlookup, h, ih]

theorem dlookup_dinsert_ne {α : Type} {k k' : String} (h : k ≠ k') (v : α)
    (l : List (String × α)) : dlookup k' (dinsert k v l) = dlookup k' l := by
  induction l with
  | nil => simp [dinsert, dlookup, h]
  | cons p rest ih =>
    obtain ⟨k'', v''⟩ := p
    by_cases h2 : k'' = k
    · subst h2
      simp [dinsert, dlookup, h]
    · simp [dinsert, dlookup, h2, ih]

/-- C1: the spec claims a cached value is returned iff its age is strictly
below the TTL, and that at any age at or beyond the TTL — "including ages
exceeding one day" — the lookup behaves as absent.  The source computes
`(now - cache_time).seconds`, the timedelta's seconds *component* (age modulo
86400), so an entry put at t=0 with ttl=300 is served again at t=86400
(age exactly one day) even with the upstream down: the code contradicts the
spec, its own `# 5 minutes` comment and its expired-cache test's intent. -/
theorem cache_lookup_serves_day_old_entry :
    is_cache_valid [("london", ({ data := 20, timestamp := 0 } : CacheEntry Nat))]
      weather_cache_duration 86400 "london" = true ∧
    get_weather_data [("london", ({ data := 20, timestamp := 0 } : CacheEntry Nat))]
      86400 "london" (.error "api down")
      = (.ok 20, [("london", { data := 20, timestamp := 0 })]) := by
  constructor <;> rfl

/-- C2: a session created (or written to) under user `u` is invisible to any
other user `u'`: `get_session sid u'` resolves exactly as it did before, so
the two user scopes never share state even when the session_id values
coincide. -/
theorem session_user_scope_isolation (m : SessionManager)
    (u u' sid role content mid : String) (now nowq : Nat) (h : u ≠ u') :
    ((m.create_session u sid now).2.get_session sid u' nowq
      = m.get_session sid u' nowq) ∧
    ((m.add_message sid role content u mid now).2.get_session sid u' nowq
      = m.get_session sid u' nowq) := by
  constructor
  · unfold SessionManager.create_session SessionManager.get_session
    rw [dlookup_dinsert_ne h]
    rfl
  · unfold SessionManager.add_message
    cases hg : m.get_session sid u now with
    | none => rfl
    | some s =>
      unfold SessionManager.get_session
      rw [dlookup_dinsert_ne h]
      rfl

/-- C2 witness: two distinct users, the second holding a session whose id
collides with the one just created for the first; it still resolves to its
own session. -/
theorem session_user_scope_isolation_witness :
    (((SessionManager.mk [("u2", [("s1", ChatSession.mk "s1" [] 3 3)])]
        86400).create_session "u1" "s1" 10).2.get_session "s1" "u2" 11
      = (SessionManager.mk [("u2", [("s1", ChatSession.mk "s1" [] 3 3)])]
        86400).get_session "s1" "u2" 11) ∧
    (((SessionManager.mk [("u2", [("s1", ChatSession.mk "s1" [] 3 3)])]
        86400).add_message "s1" "user" "hello" "u1" "m1" 10).2.get_session
          "s1" "u2" 11
      = (SessionManager.mk [("u2", [("s1", ChatSession.mk "s1" [] 3 3)])]
        86400).get_session "s1" "u2" 11) :=
  session_user_scope_isolation _ "u1" "u2" "s1" "user" "hello" "m1" 10 11
    (by decide)

/-- C3: on a cache miss a failing producer leaves the cache map unchanged and
no entry is stored for the key, so a subsequent call with a succeeding
producer performs the upstream fetch again and then caches its result; this
holds for the weather-service fetchers and for the air-quality service. -/
theorem failed_producer_not_cached {V : Type}
    (wcache acache : List (String × CacheEntry V)) (now now' : Nat)
    (city akey e e' : String) (v w : V)
    (hmiss : dlookup city wcache = none)
    (hamiss : dlookup akey acache = none) :
    get_weather_data wcache now city (.error e) = (.error e, wcache) ∧
    get_weather_data wcache now' city (.ok v)
      = (.ok v, dinsert city { data := v, timestamp := now' } wcache) ∧
    dlookup city (get_weather_data wcache now' city (.ok v)).2
      = some { data := v, timestamp := now' } ∧
    get_air_quality_data acache now akey (.error e') = (none, acache) ∧
    get_air_quality_data acache now' akey (.ok (some w))
      = (some w, dinsert akey { data := w, timestamp := now' } acache) := by
  refine ⟨?_, ?_, ?_, ?_, ?_⟩ <;>
    simp [get_weather_data, get_air_quality_data, fetch_and_cache, hmiss,
      hamiss, dlookup_dinsert_self]

/-- C3 witness: empty caches, a failed fetch for "london", then a successful
one that gets cached. -/
theorem failed_producer_not_cached_witness :
    get_weather_data ([] : List (String × CacheEntry Nat)) 0 "london"
      (.error "down") = (.error "down", []) ∧
    get_weather_data ([] : List (String × CacheEntry Nat)) 5 "london"
      (.ok 20) = (.ok 20, [("london", { data := 20, timestamp := 5 })]) ∧
    get_air_quality_data ([] : List (String × CacheEntry Nat)) 0 "paris"
      (.error "err") = (none, []) := by
  have h := failed_producer_not_cached ([] : List (String × CacheEntry Nat))
    ([] : List (String × CacheEntry Nat)) 0 5 "london" "paris" "down" "err"
    20 21 rfl rfl
  exact ⟨h.1, h.2.1, h.2.2.2.1⟩

theorem get_session_some_elim {m : SessionManager} {sid uid : String}
    {now : Nat} {s : ChatSession}
    (h : m.get_session sid uid now = some s) :
    ∃ subs, dlookup uid m.user_sessions = some subs ∧
      dlookup sid subs = some s ∧ m.is_session_valid now s = true := by
  unfold SessionManager.get_session at h
  split at h
  next => cases h
  next subs h1 =>
    split at h
    next s0 h2 =>
      split at h
      next hv =>
        injection h with h
        subst h
        exact ⟨subs, h1, h2, hv⟩
      next hv => cases h
    next h2 => cases h

/-- C4: `add_message` returns absent exactly when `get_session` resolves no
valid session; otherwise it appends one new message carrying the injected
fresh id and the current timestamp, updates `last_activity` to now, returns
that message, and an immediately following
`get_conversation_history(limit=1)` returns exactly the appended message. -/
theorem add_message_spec (m : SessionManager)
    (sid uid role content mid : String) (now : Nat)
    (hpos : 0 < m.session_timeout) :
    ((m.add_message sid role content uid mid now).1 = none
      ↔ m.get_session sid uid now = none) ∧
    ∀ s, m.get_session sid uid now = some s →
      (m.add_message sid role content uid mid now).1
        = some (ChatMessage.mk role content now mid) ∧
      (m.add_message sid role content uid mid now).2.get_session sid uid now
        = some (ChatSession.mk s.session_id
            (s.messages ++ [ChatMessage.mk role content now mid])
            s.created_at now) ∧
      (m.add_message sid role content uid mid now).2.get_conversation_history
          sid uid 1 now
        = [ChatMessage.mk role content now mid] := by
  constructor
  · cases hg : m.get_session sid uid now with
    | none => simp [SessionManager.add_message, hg]
    | some s => simp [SessionManager.add_message, hg]
  · intro s hg
    obtain ⟨subs, h1, h2, hv⟩ := get_session_some_elim hg
    have hadd :
        (m.add_message sid role content uid mid now).2
          = SessionManager.mk (dinsert uid (dinsert sid (ChatSession.mk s.session_id (s.messages ++ [ChatMessage.mk role content now mid]) s.created_at now) subs) m.user_sessions) m.session_timeout := by
      simp [SessionManager.add_message, hg, h1]
    have hget :
        (m.add_message sid role content uid mid now).2.get_session sid uid now
          = some (ChatSession.mk s.session_id
              (s.messages ++ [ChatMessage.mk role content now mid])
              s.created_at now) := by
      rw [hadd]
      simp [SessionManager.get_session, dlookup_dinsert_self,
        SessionManager.is_session_valid, hpos]
    refine ⟨by simp [SessionManager.add_message, hg], hget, ?_⟩
    unfold SessionManager.get_conversation_history
    rw [hget]
    have hlen :
        (s.messages ++ [ChatMessage.mk role content now mid]).length - 1
          = s.messages.length := by simp
    simp only [ChatSession.mk.injEq]
    rw [if_neg (by decide : ¬ (1 : Nat) = 0)]
    simp only [hlen]
    exact List.drop_left s.messages [ChatMessage.mk role content now mid]

/-- C4 witness: one fresh session for "u1"; the appended message is returned
and is the whole limit-1 history. -/
theorem add_message_spec_witness :
    ((SessionManager.mk [("u1", [("s1", ChatSession.mk "s1" [] 0 0)])]
        86400).add_message "s1" "user" "hello" "u1" "m1" 5).1
      = some (ChatMessage.mk "user" "hello" 5 "m1") ∧
    ((SessionManager.mk [("u1", [("s1", ChatSession.mk "s1" [] 0 0)])]
        86400).add_message "s1" "user" "hello" "u1" "m1"
          5).2.get_conversation_history "s1" "u1" 1 5
      = [ChatMessage.mk "user" "hello" 5 "m1"] := by
  have h := (add_message_spec
    (SessionManager.mk [("u1", [("s1", ChatSession.mk "s1" [] 0 0)])] 86400)
    "s1" "u1" "user" "hello" "m1" 5 (by decide)).2
    (ChatSession.mk "s1" [] 0 0) rfl
  exact ⟨h.1, h.2.2⟩

theorem foldl_derase_cons {α : Type} (ids : List String) (k : String) (v : α)
    (rest : List (String × α)) (h : ∀ id ∈ ids, id ≠ k) :
    ids.foldl (fun acc sid => derase sid acc) ((k, v) :: rest)
      = (k, v) :: ids.foldl (fun acc sid => derase sid acc) rest := by
  induction ids generalizing rest with
  | nil => rfl
  | cons i ids ih =>
    have hik : i ≠ k := h i (List.mem_cons_self i ids)
    have hrest : ∀ id ∈ ids, id ≠ k := fun id hid => h id (List.mem_cons_of_mem i hid)
    simp only [List.foldl_cons]
    rw [show derase i ((k, v) :: rest) = (k, v) :: derase i rest by
      simp [derase, Ne.symm hik]]
    exact ih (derase i rest) hrest

theorem foldl_derase_filter {α : Type} (subs : List (String × α))
    (P : String × α → Bool) (hnodup : (subs.map Prod.fst).Nodup) :
    ((subs.filter P).map Prod.fst).foldl (fun acc k => derase k acc) subs
      = subs.filter (fun p => ! P p) := by
  induction subs with
  | nil => rfl
  | cons p rest ih =>
    obtain ⟨k, v⟩ := p
    rw [List.map_cons, List.nodup_cons] at hnodup
    obtain ⟨hk, hrest⟩ := hnodup
    by_cases hP : P (k, v) = true
    · rw [List.filter_cons_of_pos hP, List.map_cons, List.foldl_cons]
      rw [show derase k ((k, v) :: rest) = rest by simp [derase]]
      rw [List.filter_cons_of_neg (by simp [hP])]
      exact ih hrest
    · rw [List.filter_cons_of_neg hP]
      have hids : ∀ id ∈ (rest.filter P).map Prod.fst, id ≠ k := by
        intro id hid h2
        subst h2
        obtain ⟨p, hp, hpk⟩ := List.mem_map.mp hid
        exact hk (List.mem_map.mpr ⟨p, List.mem_of_mem_filter hp, hpk⟩)
      rw [foldl_derase_cons _ _ _ _ hids]
      rw [List.filter_cons_of_pos (by simp at hP; simp [hP])]
      rw [ih hrest]

/-- C5: `cleanup_expired_sessions` removes exactly the user's sessions whose
`last_activity` age is at or beyond the session TTL, keeps the non-expired
ones (and every other user's sessions), returns the number removed, and an
immediate second invocation at the same instant returns 0; an unknown user
yields 0 with the store unchanged. -/
theorem cleanup_expired_sessions_spec (m : SessionManager) (uid : String)
    (now : Nat)
    (hnodup : (((dlookup uid m.user_sessions).getD []).map Prod.fst).Nodup) :
    (dlookup uid m.user_sessions = none →
      m.cleanup_expired_sessions uid now = (0, m)) ∧
    ∀ subs, dlookup uid m.user_sessions = some subs →
      (m.cleanup_expired_sessions uid now).1
        = (subs.filter (fun p => ! m.is_session_valid now p.2)).length ∧
      dlookup uid (m.cleanup_expired_sessions uid now).2.user_sessions
        = some (subs.filter (fun p => m.is_session_valid now p.2)) ∧
      (∀ u', u' ≠ uid →
        dlookup u' (m.cleanup_expired_sessions uid now).2.user_sessions
          = dlookup u' m.user_sessions) ∧
      ((m.cleanup_expired_sessions uid now).2.cleanup_expired_sessions
          uid now).1 = 0 := by
  constructor
  · intro h
    simp [SessionManager.cleanup_expired_sessions, h]
  · intro subs hsubs
    rw [hsubs] at hnodup
    simp only [Option.getD_some] at hnodup
    have hfold := foldl_derase_filter subs
      (fun p => ! m.is_session_valid now p.2) hnodup
    have hfold' : ((subs.filter (fun p => ! m.is_session_valid now p.2)).map
        Prod.fst).foldl (fun acc k => derase k acc) subs
          = subs.filter (fun p => m.is_session_valid now p.2) := by
      rw [hfold]
      simp
    have hclean :
        m.cleanup_expired_sessions uid now
          = ((subs.filter (fun p => ! m.is_session_valid now p.2)).length,
             SessionManager.mk (dinsert uid (subs.filter (fun p => m.is_session_valid now p.2)) m.user_sessions) m.session_timeout) := by
      simp only [SessionManager.cleanup_expired_sessions, hsubs]
      rw [hfold']
      simp
    refine ⟨by rw [hclean], ?_, ?_, ?_⟩
    · rw [hclean]
      exact dlookup_dinsert_self _ _ _
    · intro u' hu'
      rw [hclean]
      exact dlookup_dinsert_ne (fun h => hu' h.symm) _ _
    · rw [hclean]
      simp only [SessionManager.cleanup_expired_sessions,
        dlookup_dinsert_self]
      rw [show (subs.filter (fun p => m.is_session_valid now p.2)).filter
          (fun p => ! (SessionManager.mk (dinsert uid (subs.filter (fun p => m.is_session_valid now p.2)) m.user_sessions) m.session_timeout).is_session_valid now p.2) = [] from ?_]
      · simp
      · rw [List.filter_eq_nil_iff]
        intro p hp
        have hv := List.of_mem_filter hp
        simp only [SessionManager.is_session_valid] at hv ⊢
        simp [hv]

/-- C5 witness: one active and one expired session for "u1"; the expired one
is removed, the count is 1, a second run removes nothing. -/
theorem cleanup_expired_sessions_spec_witness :
    ((SessionManager.mk [("u1", [("s1", ChatSession.mk "s1" [] 0 0),
        ("s2", ChatSession.mk "s2" [] 90000 90000)])]
        86400).cleanup_expired_sessions "u1" 100000).1
      = ([(("s1" : String), ChatSession.mk "s1" [] 0 0)]).length ∧
    dlookup "u1" ((SessionManager.mk [("u1", [("s1", ChatSession.mk "s1" [] 0 0),
        ("s2", ChatSession.mk "s2" [] 90000 90000)])]
        86400).cleanup_expired_sessions "u1" 100000).2.user_sessions
      = some [(("s2" : String), ChatSession.mk "s2" [] 90000 90000)] ∧
    (((SessionManager.mk [("u1", [("s1", ChatSession.mk "s1" [] 0 0),
        ("s2", ChatSession.mk "s2" [] 90000 90000)])]
        86400).cleanup_expired_sessions "u1" 100000).2.cleanup_expired_sessions
        "u1" 100000).1 = 0 := by
  have h := (cleanup_expired_sessions_spec
    (SessionManager.mk [("u1", [("s1", ChatSession.mk "s1" [] 0 0),
      ("s2", ChatSession.mk "s2" [] 90000 90000)])] 86400)
    "u1" 100000 (by decide)).2
    [("s1", ChatSession.mk "s1" [] 0 0),
     ("s2", ChatSession.mk "s2" [] 90000 90000)] rfl
  refine ⟨?_, ?_, h.2.2.2⟩
  · rw [h.1]
    rfl
  · rw [h.2.1]
    rfl

/-- C6 counterexample: the source declares the default argument
`limit: int = 10`, so a call with `limit` unset returns the last 10
messages, not all of them: on a valid 11-message session the first message
is lost — refuting "when `limit` is zero or unset it returns all of the
session's messages". -/
theorem history_unset_returns_last_ten_counterexample :
    (SessionManager.mk [("u1", [("s1", ChatSession.mk "s1"
        [ChatMessage.mk "user" "c" 0 "m0", ChatMessage.mk "user" "c" 1 "m1",
         ChatMessage.mk "user" "c" 2 "m2", ChatMessage.mk "user" "c" 3 "m3",
         ChatMessage.mk "user" "c" 4 "m4", ChatMessage.mk "user" "c" 5 "m5",
         ChatMessage.mk "user" "c" 6 "m6", ChatMessage.mk "user" "c" 7 "m7",
         ChatMessage.mk "user" "c" 8 "m8", ChatMessage.mk "user" "c" 9 "m9",
         ChatMessage.mk "user" "c" 10 "m10"] 0 10)])]
        86400).get_session "s1" "u1" 20
      = some (ChatSession.mk "s1"
        [ChatMessage.mk "user" "c" 0 "m0", ChatMessage.mk "user" "c" 1 "m1",
         ChatMessage.mk "user" "c" 2 "m2", ChatMessage.mk "user" "c" 3 "m3",
         ChatMessage.mk "user" "c" 4 "m4", ChatMessage.mk "user" "c" 5 "m5",
         ChatMessage.mk "user" "c" 6 "m6", ChatMessage.mk "user" "c" 7 "m7",
         ChatMessage.mk "user" "c" 8 "m8", ChatMessage.mk "user" "c" 9 "m9",
         ChatMessage.mk "user" "c" 10 "m10"] 0 10) ∧
    (SessionManager.mk [("u1", [("s1", ChatSession.mk "s1"
        [ChatMessage.mk "user" "c" 0 "m0", ChatMessage.mk "user" "c" 1 "m1",
         ChatMessage.mk "user" "c" 2 "m2", ChatMessage.mk "user" "c" 3 "m3",
         ChatMessage.mk "user" "c" 4 "m4", ChatMessage.mk "user" "c" 5 "m5",
         ChatMessage.mk "user" "c" 6 "m6", ChatMessage.mk "user" "c" 7 "m7",
         ChatMessage.mk "user" "c" 8 "m8", ChatMessage.mk "user" "c" 9 "m9",
         ChatMessage.mk "user" "c" 10 "m10"] 0 10)])]
        86400).get_conversation_history_unset "s1" "u1" 20
      = [ChatMessage.mk "user" "c" 1 "m1",
         ChatMessage.mk "user" "c" 2 "m2", ChatMessage.mk "user" "c" 3 "m3",
         ChatMessage.mk "user" "c" 4 "m4", ChatMessage.mk "user" "c" 5 "m5",
         ChatMessage.mk "user" "c" 6 "m6", ChatMessage.mk "user" "c" 7 "m7",
         ChatMessage.mk "user" "c" 8 "m8", ChatMessage.mk "user" "c" 9 "m9",
         ChatMessage.mk "user" "c" 10 "m10"] ∧
    (SessionManager.mk [("u1", [("s1", ChatSession.mk "s1"
        [ChatMessage.mk "user" "c" 0 "m0", ChatMessage.mk "user" "c" 1 "m1",
         ChatMessage.mk "user" "c" 2 "m2", ChatMessage.mk "user" "c" 3 "m3",
         ChatMessage.mk "user" "c" 4 "m4", ChatMessage.mk "user" "c" 5 "m5",
         ChatMessage.mk "user" "c" 6 "m6", ChatMessage.mk "user" "c" 7 "m7",
         ChatMessage.mk "user" "c" 8 "m8", ChatMessage.mk "user" "c" 9 "m9",
         ChatMessage.mk "user" "c" 10 "m10"] 0 10)])]
        86400).get_conversation_history_unset "s1" "u1" 20
      ≠ [ChatMessage.mk "user" "c" 0 "m0", ChatMessage.mk "user" "c" 1 "m1",
         ChatMessage.mk "user" "c" 2 "m2", ChatMessage.mk "user" "c" 3 "m3",
         ChatMessage.mk "user" "c" 4 "m4", ChatMessage.mk "user" "c" 5 "m5",
         ChatMessage.mk "user" "c" 6 "m6", ChatMessage.mk "user" "c" 7 "m7",
         ChatMessage.mk "user" "c" 8 "m8", ChatMessage.mk "user" "c" 9 "m9",
         ChatMessage.mk "user" "c" 10 "m10"] := by
  refine ⟨rfl, rfl, ?_⟩
  decide

/-- C6 amended: for a resolvable session, `get_conversation_history` returns
a suffix of the session's messages (insertion order preserved) of length
`min limit length` — the last `limit` messages; a zero limit returns all
messages; an *unset* limit defaults to 10 and returns the last
`min 10 length` messages, not all of them; an absent or expired session
yields the empty sequence. -/
theorem get_conversation_history_spec (m : SessionManager)
    (sid uid : String) (limit now : Nat) :
    (m.get_session sid uid now = none →
      m.get_conversation_history sid uid limit now = [] ∧
      m.get_conversation_history_unset sid uid now = []) ∧
    ∀ s, m.get_session sid uid now = some s →
      (limit = 0 →
        m.get_conversation_history sid uid limit now = s.messages) ∧
      (limit ≠ 0 →
        (∃ pre, pre ++ m.get_conversation_history sid uid limit now
            = s.messages) ∧
        (m.get_conversation_history sid uid limit now).length
          = min limit s.messages.length) ∧
      ((∃ pre, pre ++ m.get_conversation_history_unset sid uid now
          = s.messages) ∧
        (m.get_conversation_history_unset sid uid now).length
          = min 10 s.messages.length) := by
  constructor
  · intro h
    constructor
    · simp [SessionManager.get_conversation_history, h]
    · simp [SessionManager.get_conversation_history_unset,
        SessionManager.get_conversation_history, h]
  · intro s hg
    have hmain : ∀ l : Nat, l ≠ 0 →
        (∃ pre, pre ++ m.get_conversation_history sid uid l now
            = s.messages) ∧
        (m.get_conversation_history sid uid l now).length
          = min l s.messages.length := by
      intro l h0
      have hh : m.get_conversation_history sid uid l now
          = s.messages.drop (s.messages.length - l) := by
        simp [SessionManager.get_conversation_history, hg, h0]
      rw [hh]
      refine ⟨⟨s.messages.take (s.messages.length - l),
        List.take_append_drop _ _⟩, ?_⟩
      rw [List.length_drop]
      omega
    refine ⟨?_, hmain limit, ?_⟩
    · intro h0
      simp [SessionManager.get_conversation_history, hg, h0]
    · exact hmain 10 (by decide)

/-- C6 witness: a two-message session queried with limit 1 returns a suffix
of length 1, and queried with limit unset returns a suffix of length
`min 10 2`. -/
theorem get_conversation_history_spec_witness :
    ((∃ pre, pre ++ (SessionManager.mk [("u1", [("s1", ChatSession.mk "s1"
        [ChatMessage.mk "user" "hello" 1 "m1",
         ChatMessage.mk "assistant" "hi" 2 "m2"] 0
        2)])] 86400).get_conversation_history "s1" "u1" 1 5
      = [ChatMessage.mk "user" "hello" 1 "m1",
         ChatMessage.mk "assistant" "hi" 2 "m2"]) ∧
    ((SessionManager.mk [("u1", [("s1", ChatSession.mk "s1"
        [ChatMessage.mk "user" "hello" 1 "m1",
         ChatMessage.mk "assistant" "hi" 2 "m2"] 0
        2)])] 86400).get_conversation_history "s1" "u1" 1 5).length
      = min 1 ([ChatMessage.mk "user" "hello" 1 "m1",
         ChatMessage.mk "assistant" "hi" 2 "m2"] : List ChatMessage).length) ∧
    ((∃ pre, pre ++ (SessionManager.mk [("u1", [("s1", ChatSession.mk "s1"
        [ChatMessage.mk "user" "hello" 1 "m1",
         ChatMessage.mk "assistant" "hi" 2 "m2"] 0
        2)])] 86400).get_conversation_history_unset "s1" "u1" 5
      = [ChatMessage.mk "user" "hello" 1 "m1",
         ChatMessage.mk "assistant" "hi" 2 "m2"]) ∧
    ((SessionManager.mk [("u1", [("s1", ChatSession.mk "s1"
        [ChatMessage.mk "user" "hello" 1 "m1",
         ChatMessage.mk "assistant" "hi" 2 "m2"] 0
        2)])] 86400).get_conversation_history_unset "s1" "u1" 5).length
      = min 10 ([ChatMessage.mk "user" "hello" 1 "m1",
         ChatMessage.mk "assistant" "hi" 2 "m2"] : List ChatMessage).length) :=
  ⟨(((get_conversation_history_spec
      (SessionManager.mk [("u1", [("s1", ChatSession.mk "s1"
        [ChatMessage.mk "user" "hello" 1 "m1",
         ChatMessage.mk "assistant" "hi" 2 "m2"] 0 2)])] 86400)
      "s1" "u1" 1 5).2
    (ChatSession.mk "s1" [ChatMessage.mk "user" "hello" 1 "m1",
      ChatMessage.mk "assistant" "hi" 2 "m2"] 0 2) rfl).2.1 (by decide)),
   (((get_conversation_history_spec
      (SessionManager.mk [("u1", [("s1", ChatSession.mk "s1"
        [ChatMessage.mk "user" "hello" 1 "m1",
         ChatMessage.mk "assistant" "hi" 2 "m2"] 0 2)])] 86400)
      "s1" "u1" 1 5).2
    (ChatSession.mk "s1" [ChatMessage.mk "user" "hello" 1 "m1",
      ChatMessage.mk "assistant" "hi" 2 "m2"] 0 2) rfl).2.2)⟩

/-- C7: `delete_all_sessions` returns the number of sessions the user had and
empties that user's scope (every `get_session` under it now misses), while
every other user's sessions — and their resolution — are untouched. -/
theorem delete_all_sessions_spec (m : SessionManager) (uid : String) :
    (m.delete_all_sessions uid).1
      = ((dlookup uid m.user_sessions).getD []).length ∧
    (∀ u', u' ≠ uid →
      dlookup u' (m.delete_all_sessions uid).2.user_sessions
        = dlookup u' m.user_sessions) ∧
    (∀ u' sid now, u' ≠ uid →
      (m.delete_all_sessions uid).2.get_session sid u' now
        = m.get_session sid u' now) ∧
    (∀ sid now,
      (m.delete_all_sessions uid).2.get_session sid uid now = none) := by
  cases h : dlookup uid m.user_sessions with
  | none =>
    refine ⟨by simp [SessionManager.delete_all_sessions, h], ?_, ?_, ?_⟩
    · intro u' hu'
      simp [SessionManager.delete_all_sessions, h]
    · intro u' sid now hu'
      simp [SessionManager.delete_all_sessions, h]
    · intro sid now
      simp [SessionManager.delete_all_sessions, SessionManager.get_session, h]
  | some subs =>
    have hdel : m.delete_all_sessions uid
        = (subs.length, SessionManager.mk (dinsert uid [] m.user_sessions) m.session_timeout) := by
      simp [SessionManager.delete_all_sessions, h]
    refine ⟨by rw [hdel]; rfl, ?_, ?_, ?_⟩
    · intro u' hu'
      rw [hdel]
      exact dlookup_dinsert_ne (fun h2 => hu' h2.symm) _ _
    · intro u' sid now hu'
      rw [hdel]
      unfold SessionManager.get_session
      rw [dlookup_dinsert_ne (fun h2 => hu' h2.symm)]
      rfl
    · intro sid now
      rw [hdel]
      simp [SessionManager.get_session, dlookup_dinsert_self, dlookup]

/-- C7 witness: the spec's concrete scenario — three sessions for "u1", one
for "u2"; deleting all of "u1" returns 3 and leaves "u2" resolving exactly
as before. -/
theorem delete_all_sessions_spec_witness :
    ((SessionManager.mk [("u1", [("s1", ChatSession.mk "s1" [] 0 0),
        ("s2", ChatSession.mk "s2" [] 0 0), ("s3", ChatSession.mk "s3" [] 0 0)]),
        ("u2", [("s4", ChatSession.mk "s4" [] 0 0)])]
        86400).delete_all_sessions "u1").1 = 3 ∧
    ((SessionManager.mk [("u1", [("s1", ChatSession.mk "s1" [] 0 0),
        ("s2", ChatSession.mk "s2" [] 0 0), ("s3", ChatSession.mk "s3" [] 0 0)]),
        ("u2", [("s4", ChatSession.mk "s4" [] 0 0)])]
        86400).delete_all_sessions "u1").2.get_session "s4" "u2" 10
      = (SessionManager.mk [("u1", [("s1", ChatSession.mk "s1" [] 0 0),
        ("s2", ChatSession.mk "s2" [] 0 0), ("s3", ChatSession.mk "s3" [] 0 0)]),
        ("u2", [("s4", ChatSession.mk "s4" [] 0 0)])]
        86400).get_session "s4" "u2" 10 :=
  ⟨((delete_all_sessions_spec
      (SessionManager.mk [("u1", [("s1", ChatSession.mk "s1" [] 0 0),
        ("s2", ChatSession.mk "s2" [] 0 0), ("s3", ChatSession.mk "s3" [] 0 0)]),
        ("u2", [("s4", ChatSession.mk "s4" [] 0 0)])] 86400)
      "u1").1).trans rfl,
   (delete_all_sessions_spec
      (SessionManager.mk [("u1", [("s1", ChatSession.mk "s1" [] 0 0),
        ("s2", ChatSession.mk "s2" [] 0 0), ("s3", ChatSession.mk "s3" [] 0 0)]),
        ("u2", [("s4", ChatSession.mk "s4" [] 0 0)])] 86400)
      "u1").2.2.1 "u2" "s4" 10 (by decide)⟩

/-- C10: `get_session_stats` satisfies
`total_sessions = active_sessions + expired_sessions`, with
`active_sessions` counting exactly the sessions whose `last_activity` age is
strictly below the TTL; an unknown user yields three zeros. -/
theorem get_session_stats_spec (m : SessionManager) (uid : String)
    (now : Nat) :
    (m.get_session_stats uid now).1
      = (m.get_session_stats uid now).2.1
        + (m.get_session_stats uid now).2.2 ∧
    (m.get_session_stats uid now).2.1
      = (((dlookup uid m.user_sessions).getD []).filter
          (fun p => m.is_session_valid now p.2)).length ∧
    (dlookup uid m.user_sessions = none →
      m.get_session_stats uid now = (0, 0, 0)) := by
  cases h : dlookup uid m.user_sessions with
  | none => simp [SessionManager.get_session_stats, h]
  | some subs =>
    have hle : (subs.filter (fun p => m.is_session_valid now p.2)).length
        ≤ subs.length := List.length_filter_le _ _
    refine ⟨?_, ?_, ?_⟩
    · simp only [SessionManager.get_session_stats, h]
      omega
    · simp [SessionManager.get_session_stats, h]
    · exact fun h2 => Option.noConfusion h2

/-- C10 witness: one active and one expired session give stats (2, 1, 1)
with 2 = 1 + 1. -/
theorem get_session_stats_spec_witness :
    ((SessionManager.mk [("u1", [("s1", ChatSession.mk "s1" [] 0 0),
        ("s2", ChatSession.mk "s2" [] 90000 90000)])]
        86400).get_session_stats "u1" 100000).1
      = ((SessionManager.mk [("u1", [("s1", ChatSession.mk "s1" [] 0 0),
        ("s2", ChatSession.mk "s2" [] 90000 90000)])]
        86400).get_session_stats "u1" 100000).2.1
        + ((SessionManager.mk [("u1", [("s1", ChatSession.mk "s1" [] 0 0),
        ("s2", ChatSession.mk "s2" [] 90000 90000)])]
        86400).get_session_stats "u1" 100000).2.2 :=
  (get_session_stats_spec
    (SessionManager.mk [("u1", [("s1", ChatSession.mk "s1" [] 0 0),
      ("s2", ChatSession.mk "s2" [] 90000 90000)])] 86400)
    "u1" 100000).1

/-- C9 counterexample: with users ["u1", "u2"] and the cleanup call failing
for "u1" only, the sweep iteration catches the failure but processes no
further user: "u2" is not cleaned in that iteration although its own cleanup
would have succeeded — refuting the claim that the remaining users of the
same iteration are still cleaned. -/
theorem sweep_aborts_iteration_counterexample :
    periodic_cleanup_iteration
      (fun u => if u = "u1" then (.error "boom" : Except String Nat)
                else .ok 1) ["u1", "u2"]
      = (0, some "boom", []) ∧
    (fun u => if u = "u1" then (.error "boom" : Except String Nat)
              else .ok 1) "u2" = .ok 1 ∧
    "u2" ∉ (periodic_cleanup_iteration
      (fun u => if u = "u1" then (.error "boom" : Except String Nat)
                else .ok 1) ["u1", "u2"]).2.2 := by
  refine ⟨rfl, rfl, ?_⟩
  intro h
  rw [show (periodic_cleanup_iteration
      (fun u => if u = "u1" then (.error "boom" : Except String Nat)
                else .ok 1) ["u1", "u2"]).2.2 = [] from rfl] at h
  cases h

/-- C9 amended: a failure raised by one user's cleanup call is caught and
logged at the level of the whole sweep iteration, which aborts the per-user
loop: the users that precede the failing one are cleaned, the users after it
are skipped for that iteration (the sweeper itself survives and runs again
at the next interval). -/
theorem sweep_failure_caught_aborts_iteration
    (cleanup : String → Except String Nat) (pre post : List String)
    (u e : String) (hpre : ∀ x ∈ pre, ∃ n, cleanup x = .ok n)
    (hu : cleanup u = .error e) :
    (periodic_cleanup_iteration cleanup (pre ++ u :: post)).2.1 = some e ∧
    (periodic_cleanup_iteration cleanup (pre ++ u :: post)).2.2 = pre := by
  have key : ∀ acc, (cleanup_loop cleanup (pre ++ u :: post) acc).2
      = (some e, pre) := by
    induction pre with
    | nil =>
      intro acc
      simp [cleanup_loop, hu]
    | cons x rest ih =>
      intro acc
      obtain ⟨n, hn⟩ := hpre x (List.mem_cons_self x rest)
      have ihrest := ih (fun y hy => hpre y (List.mem_cons_of_mem x hy))
      simp only [List.cons_append, cleanup_loop, hn]
      have h2 := ihrest (acc + n)
      refine Prod.ext ?_ ?_
      · simpa using congrArg Prod.fst h2
      · simpa using congrArg Prod.snd h2
  have h := key 0
  exact ⟨congrArg Prod.fst h, congrArg Prod.snd h⟩

/-- C9 amended witness: cleanup succeeds for "u0", fails for "u1"; the
iteration reports the caught failure and only "u0" as processed. -/
theorem sweep_failure_caught_aborts_iteration_witness :
    (periodic_cleanup_iteration
      (fun u => if u = "u1" then (.error "boom" : Except String Nat)
                else .ok 1) (["u0"] ++ "u1" :: ["u2"])).2.1 = some "boom" ∧
    (periodic_cleanup_iteration
      (fun u => if u = "u1" then (.error "boom" : Except String Nat)
                else .ok 1) (["u0"] ++ "u1" :: ["u2"])).2.2 = ["u0"] :=
  sweep_failure_caught_aborts_iteration
    (fun u => if u = "u1" then (.error "boom" : Except String Nat) else .ok 1)
    ["u0"] ["u2"] "u1" "boom"
    (by
      intro x hx
      rw [List.mem_singleton] at hx
      subst hx
      exact ⟨1, rfl⟩) rfl

theorem append_underscore_inj (l1 : List Char) :
    ∀ (l2 r1 r2 : List Char), '_' ∉ l1 → '_' ∉ l2 →
      l1 ++ '_' :: r1 = l2 ++ '_' :: r2 → l1 = l2 ∧ r1 = r2 := by
  induction l1 with
  | nil =>
    intro l2 r1 r2 h1 h2 h
    cases l2 with
    | nil => simpa using h
    | cons b t =>
      exfalso
      simp only [List.nil_append, List.cons_append, List.cons.injEq] at h
      apply h2
      rw [h.1]
      exact List.mem_cons_self _ _
  | cons a t ih =>
    intro l2 r1 r2 h1 h2 h
    cases l2 with
    | nil =>
      exfalso
      simp only [List.cons_append, List.nil_append, List.cons.injEq] at h
      apply h1
      rw [← h.1]
      exact List.mem_cons_self _ _
    | cons b t2 =>
      simp only [List.cons_append, List.cons.injEq] at h
      obtain ⟨hab, hrest⟩ := h
      have h1' : '_' ∉ t := fun hm => h1 (List.mem_cons_of_mem a hm)
      have h2' : '_' ∉ t2 := fun hm => h2 (List.mem_cons_of_mem b hm)
      obtain ⟨he, hr⟩ := ih t2 r1 r2 h1' h2' hrest
      exact ⟨by rw [hab, he], hr⟩

theorem forecast_cache_key_data (c : String) (d : Nat) :
    (forecast_cache_key c d).data
      = c.data ++ '_' :: ("forecast_".data ++ (toString d).data) := by
  show (c ++ "_forecast_" ++ toString d).data = _
  rw [String.data_append, String.data_append, List.append_assoc]
  rfl

theorem extended_cache_key_data (c : String) (d : Nat) :
    (extended_cache_key c d).data
      = c.data ++ '_' :: ("extended_".data ++ (toString d).data) := by
  show (c ++ "_extended_" ++ toString d).data = _
  rw [String.data_append, String.data_append, List.append_assoc]
  rfl

theorem historical_cache_key_data (c : String) (d : Nat) :
    (historical_cache_key c d).data
      = c.data ++ '_' :: ("historical_".data ++ (toString d).data) := by
  show (c ++ "_historical_" ++ toString d).data = _
  rw [String.data_append, String.data_append, List.append_assoc]
  rfl

/-- C8 counterexample: the cache keys are built by bare string concatenation
on one shared dict, so the kinds can alias: storing a *current weather*
entry for the city named "london_forecast_5" makes the *forecast* lookup for
city "london" with days=5 a cache hit that returns that entry — refuting
"storing an entry of one kind never makes a lookup of a different kind (or
of a different city) return it" as stated for every city. -/
theorem cache_kind_alias_counterexample :
    (get_weather_data ([] : List (String × CacheEntry Nat)) 0
        "london_forecast_5" (.ok 20)).2
      = [("london_forecast_5", CacheEntry.mk 20 0)] ∧
    forecast_cache_key "london" 5 = "london_forecast_5" ∧
    (get_forecast_data [("london_forecast_5", CacheEntry.mk (20 : Nat) 0)] 0
        "london" 5 (.error "down")).1 = .ok 20 :=
  ⟨rfl, rfl, rfl⟩

/-- C8 amended: for city names containing no underscore the composite keys
of the four data kinds (bare city for current weather, and the
city_kind_parameter concatenations) never collide — across kinds, and within
a kind across distinct cities — so storing one entry never changes what a
lookup under a different kind or city returns; city names that themselves
spell another composite key (they require an underscore) are exempt, as the
counterexample forces. -/
theorem cache_keys_no_alias (c c' : String) (d d' : Nat)
    (hc : '_' ∉ c.data) (hc' : '_' ∉ c'.data) :
    (c ≠ forecast_cache_key c' d' ∧ c ≠ extended_cache_key c' d' ∧
      c ≠ historical_cache_key c' d') ∧
    (forecast_cache_key c d ≠ extended_cache_key c' d' ∧
      forecast_cache_key c d ≠ historical_cache_key c' d' ∧
      extended_cache_key c d ≠ historical_cache_key c' d') ∧
    (c ≠ c' →
      forecast_cache_key c d ≠ forecast_cache_key c' d' ∧
      extended_cache_key c d ≠ extended_cache_key c' d' ∧
      historical_cache_key c d ≠ historical_cache_key c' d') ∧
    (∀ (cache : List (String × CacheEntry Nat)) (e : CacheEntry Nat),
      dlookup (forecast_cache_key c' d') (dinsert c e cache)
        = dlookup (forecast_cache_key c' d') cache) := by
  have hwf : c ≠ forecast_cache_key c' d' := by
    intro h
    have hd := congrArg String.data h
    rw [forecast_cache_key_data] at hd
    apply hc
    rw [hd]
    exact List.mem_append_right _ (List.mem_cons_self _ _)
  have hwe : c ≠ extended_cache_key c' d' := by
    intro h
    have hd := congrArg String.data h
    rw [extended_cache_key_data] at hd
    apply hc
    rw [hd]
    exact List.mem_append_right _ (List.mem_cons_self _ _)
  have hwh : c ≠ historical_cache_key c' d' := by
    intro h
    have hd := congrArg String.data h
    rw [historical_cache_key_data] at hd
    apply hc
    rw [hd]
    exact List.mem_append_right _ (List.mem_cons_self _ _)
  refine ⟨⟨hwf, hwe, hwh⟩, ⟨?_, ?_, ?_⟩, ?_, ?_⟩
  · intro h
    have hd := congrArg String.data h
    rw [forecast_cache_key_data, extended_cache_key_data] at hd
    obtain ⟨-, hr⟩ := append_underscore_inj _ _ _ _ hc hc' hd
    injection hr with hhead hfoo
    exact absurd hhead (by decide)
  · intro h
    have hd := congrArg String.data h
    rw [forecast_cache_key_data, historical_cache_key_data] at hd
    obtain ⟨-, hr⟩ := append_underscore_inj _ _ _ _ hc hc' hd
    injection hr with hhead hfoo
    exact absurd hhead (by decide)
  · intro h
    have hd := congrArg String.data h
    rw [extended_cache_key_data, historical_cache_key_data] at hd
    obtain ⟨-, hr⟩ := append_underscore_inj _ _ _ _ hc hc' hd
    injection hr with hhead hfoo
    exact absurd hhead (by decide)
  · intro hne
    refine ⟨?_, ?_, ?_⟩
    · intro h
      have hd := congrArg String.data h
      rw [forecast_cache_key_data, forecast_cache_key_data] at hd
      obtain ⟨he, -⟩ := append_underscore_inj _ _ _ _ hc hc' hd
      exact hne (String.ext he)
    · intro h
      have hd := congrArg String.data h
      rw [extended_cache_key_data, extended_cache_key_data] at hd
      obtain ⟨he, -⟩ := append_underscore_inj _ _ _ _ hc hc' hd
      exact hne (String.ext he)
    · intro h
      have hd := congrArg String.data h
      rw [historical_cache_key_data, historical_cache_key_data] at hd
      obtain ⟨he, -⟩ := append_underscore_inj _ _ _ _ hc hc' hd
      exact hne (String.ext he)
  · intro cache e
    exact dlookup_dinsert_ne hwf e cache

/-- C8 amended witness: with underscore-free cities "london" and "paris",
all kind keys are distinct and storing a current-weather entry for "london"
leaves the forecast lookup for ("paris", 5) unchanged. -/
theorem cache_keys_no_alias_witness :
    ("london" ≠ forecast_cache_key "paris" 5 ∧
      "london" ≠ extended_cache_key "paris" 5 ∧
      "london" ≠ historical_cache_key "paris" 5) ∧
    (forecast_cache_key "london" 3 ≠ extended_cache_key "paris" 5 ∧
      forecast_cache_key "london" 3 ≠ historical_cache_key "paris" 5 ∧
      extended_cache_key "london" 3 ≠ historical_cache_key "paris" 5) ∧
    (("london" : String) ≠ "paris" →
      forecast_cache_key "london" 3 ≠ forecast_cache_key "paris" 5 ∧
      extended_cache_key "london" 3 ≠ extended_cache_key "paris" 5 ∧
      historical_cache_key "london" 3 ≠ historical_cache_key "paris" 5) ∧
    (∀ (cache : List (String × CacheEntry Nat)) (e : CacheEntry Nat),
      dlookup (forecast_cache_key "paris" 5) (dinsert "london" e cache)
        = dlookup (forecast_cache_key "paris" 5) cache) :=
  cache_keys_no_alias "london" "paris" 3 5 (by decide) (by decide)

end WeatherStore
